import Mathlib

/-!
Shallow embedding of the filter-and-query engine of the
national-boundaries-api repository (src/filters.py, src/services.py,
src/schemas.py, src/models.py).

Python `Optional` values are modelled with `Option`; Python truthiness of an
optional string (None and "" are falsy) and of an optional float (None and 0
are falsy) is modelled explicitly by `truthy_str` and `truthy_num`.  Numeric
filter values (Python floats) are modelled with `Rat`.  SQL predicates
produced by the filters are modelled as small inductive expression types
together with evaluation functions giving the documented semantics of the
underlying SQL operators (case-insensitive comparison, prefix and substring
match, numeric comparison).
-/

/-- Python truthiness of an `Optional[str]`: `None` and the empty string are
falsy, every other string is truthy. -/
def truthy_str : Option String → Bool
  | none => false
  | some s => !s.isEmpty

/-- Python truthiness of an `Optional[float]`: `None` and `0` are falsy,
every other number is truthy. -/
def truthy_num : Option Rat → Bool
  | none => false
  | some x => x != 0

/-- schemas.StringFilter: optional `contains`, `exact`, `starts` components. -/
structure StringFilter where
  contains : Option String
  exact : Option String
  starts : Option String
deriving DecidableEq

/-- SQL string predicates produced by `_filter_by_string_field`:
`func.lower(field) == value.lower()`, `field.istartswith(value)`,
`field.icontains(value)`. -/
inductive StrPred where
  | lowerEq (s : String)
  | istartswith (s : String)
  | icontains (s : String)
deriving DecidableEq

/-- Lower-cased character list of a string (models SQL `lower` and Python
`str.lower` for the ASCII range). -/
def lower_chars (s : String) : List Char := s.toList.map Char.toLower

/-- Case-insensitive equality of strings. -/
def chars_eq_ci (a b : String) : Bool := lower_chars a == lower_chars b

/-- Case-insensitive prefix test (semantics of `istartswith`). -/
def starts_ci (pre s : String) : Bool :=
  (lower_chars pre).isPrefixOf (lower_chars s)

/-- Case-insensitive substring test (semantics of `icontains`). -/
def contains_ci (needle s : String) : Bool :=
  (List.range ((lower_chars s).length + 1)).any
    (fun i => (lower_chars needle).isPrefixOf ((lower_chars s).drop i))

/-- Evaluation of a string predicate at a (non-null) column value. -/
def eval_str_pred : StrPred → String → Bool
  | StrPred.lowerEq s, v => chars_eq_ci v s
  | StrPred.istartswith s, v => starts_ci s v
  | StrPred.icontains s, v => contains_ci s v

/-- filters._filter_by_string_field: checks `exact`, then `starts`, then
`contains`, each under Python truthiness, yielding at most one predicate. -/
def filter_by_string_field (f : StringFilter) : List StrPred :=
  if truthy_str f.exact then [StrPred.lowerEq (f.exact.getD "")]
  else if truthy_str f.starts then [StrPred.istartswith (f.starts.getD "")]
  else if truthy_str f.contains then [StrPred.icontains (f.contains.getD "")]
  else []

/-- Conjunction of all predicates a string filter yields (predicates of one
filter group are ANDed by the composer). -/
def eval_string_filter (f : StringFilter) (v : String) : Bool :=
  (filter_by_string_field f).all (fun p => eval_str_pred p v)

/-- schemas.NumberFilter: optional `eq`, `gt`, `gte`, `lt`, `lte` components
(the duplicate `lte` field declaration in schemas.py leaves a single `lte`
attribute). -/
structure NumberFilter where
  eq : Option Rat
  gt : Option Rat
  gte : Option Rat
  lt : Option Rat
  lte : Option Rat
deriving DecidableEq

/-- SQL numeric comparison predicates produced by `_filter_by_number_field`. -/
inductive NumPred where
  | numEq (c : Rat)
  | numLt (c : Rat)
  | numLte (c : Rat)
  | numGt (c : Rat)
  | numGte (c : Rat)
deriving DecidableEq

/-- Evaluation of a numeric predicate at a column value. -/
def eval_num_pred : NumPred → Rat → Bool
  | NumPred.numEq c, v => v == c
  | NumPred.numLt c, v => decide (v < c)
  | NumPred.numLte c, v => decide (v ≤ c)
  | NumPred.numGt c, v => decide (c < v)
  | NumPred.numGte c, v => decide (c ≤ v)

/-- filters._filter_by_number_field: if `eq` is truthy it alone is yielded;
otherwise `lt` (truthy) takes precedence over `lte`, and independently `gt`
(truthy) over `gte`. -/
def filter_by_number_field (f : NumberFilter) : List NumPred :=
  if truthy_num f.eq then [NumPred.numEq (f.eq.getD 0)]
  else
    (if truthy_num f.lt then [NumPred.numLt (f.lt.getD 0)]
     else if truthy_num f.lte then [NumPred.numLte (f.lte.getD 0)]
     else [])
    ++
    (if truthy_num f.gt then [NumPred.numGt (f.gt.getD 0)]
     else if truthy_num f.gte then [NumPred.numGte (f.gte.getD 0)]
     else [])

/-- Conjunction of all predicates a number filter yields. -/
def eval_number_filter (f : NumberFilter) (v : Rat) : Bool :=
  (filter_by_number_field f).all (fun p => eval_num_pred p v)

/-!
Search composition, services.BaseBoundariesService.search lines 145-152:
for each filter group the materialized predicate list is kept only when
non-empty and is combined with `and_`; the kept clauses are combined with
`or_` in the final `where`.  Predicates are modelled extensionally as boolean
functions on an abstract row type; `or_` over an empty clause list is SQL
false.
-/

/-- SQLAlchemy `and_(*predicates)` over the rows an entity query ranges over. -/
def and_all {α : Type} (ps : List (α → Bool)) : α → Bool :=
  fun r => ps.all (fun p => p r)

/-- SQLAlchemy `or_(*clauses)`; with zero clauses this is the always-false
clause. -/
def or_any {α : Type} (cs : List (α → Bool)) : α → Bool :=
  fun r => cs.any (fun c => c r)

/-- The `query_search_filters` list built by `search`: one `and_` clause per
filter group whose materialized predicate list is non-empty. -/
def query_search_filters {α : Type} (groups : List (List (α → Bool))) :
    List (α → Bool) :=
  (groups.filter (fun g => 0 < g.length)).map and_all

/-- The composed `where` condition of `search`. -/
def compose_search_filter {α : Type} (groups : List (List (α → Bool))) :
    α → Bool :=
  or_any (query_search_filters groups)

/-- Result of applying the composed `where` condition to the entity's rows. -/
def search_where {α : Type} (rows : List α) (groups : List (List (α → Bool))) :
    List α :=
  rows.filter (compose_search_filter groups)

/-!
Geometry filter, filters.BaseFilter._filter_by_geometry,
BaseFilter._apply_geometry_filter, _is_valid_geometry and _get_filter_func.
Geometry expressions sent to the spatial engine are modelled syntactically;
the engine's `ST_IsValid` round trip is an oracle mapping a geometry
expression to either a low-level execution error (sqlean OperationalError) or
a scalar result.
-/

/-- schemas.GeometryFilterMethod. -/
inductive GeometryFilterMethod where
  | intersects
  | contains
deriving DecidableEq

/-- The geoalchemy2 filter function selected by `_get_filter_func`. -/
inductive FilterFunc where
  | st_intersects
  | st_contains
deriving DecidableEq

/-- filters._get_filter_func (the catch-all ValueError arm is unreachable for
the two-valued enumeration). -/
def get_filter_func : GeometryFilterMethod → FilterFunc
  | GeometryFilterMethod.intersects => FilterFunc.st_intersects
  | GeometryFilterMethod.contains => FilterFunc.st_contains

/-- The geometry-parsing SQL function chosen per input encoding:
database.GeomFromEWKB, ST_GeomFromEWKT, database.GeomFromGeoJSON. -/
inductive GeomFromFunc where
  | geom_from_ewkb
  | st_geom_from_ewkt
  | geom_from_geojson
deriving DecidableEq

/-- The geometry column a concrete filter's `Meta.geom_field` points at
(rooms reuse the addresses geometry column). -/
inductive GeomField where
  | counties_geom
  | municipalities_geom
  | elderships_geom
  | residential_areas_geom
  | streets_geom
  | addresses_geom
  | parcels_geom
deriving DecidableEq

/-- Syntactic geometry expressions handed to the spatial engine. -/
inductive GeomExpr where
  | fromValue (f : GeomFromFunc) (v : String)
  | transform (g : GeomExpr) (srid : Int)
deriving DecidableEq

/-- One yielded geometry predicate `filter_func_type(geom, geom_field)`. -/
structure GeomPred where
  func : FilterFunc
  geom : GeomExpr
  field : GeomField
deriving DecidableEq

/-- filters.InvalidFilterGeometry exception payload. -/
structure InvalidFilterGeometry where
  message : String
  field : String
  value : String
deriving DecidableEq

/-- The spatial engine's `ST_IsValid` round trip: either a low-level
execution error or the scalar the engine returned. -/
def ValidityOracle : Type := GeomExpr → Except Unit Int

/-- filters._is_valid_geometry: an execution error is swallowed and treated
as invalid; otherwise valid exactly when the scalar equals 1. -/
def is_valid_geometry (db : ValidityOracle) (g : GeomExpr) : Bool :=
  match db g with
  | Except.error _ => false
  | Except.ok n => n == 1

/-- filters.BaseFilter._filter_by_geometry: transform the parsed input to
SRID 3346, fail with InvalidFilterGeometry when the validity check fails,
otherwise yield exactly one predicate. -/
def filter_by_geometry (db : ValidityOracle) (geom_value : String)
    (field : String) (geom_field : GeomField) (filter_func_type : FilterFunc)
    (geom_from_func_type : GeomFromFunc) :
    Except InvalidFilterGeometry (List GeomPred) :=
  let geom := GeomExpr.transform (GeomExpr.fromValue geom_from_func_type geom_value) 3346
  if !is_valid_geometry db geom then
    Except.error ⟨"Invalid geometry", field, geom_value⟩
  else
    Except.ok [⟨filter_func_type, geom, geom_field⟩]

/-- schemas.GeometryFilter. -/
structure GeometryFilter where
  method : GeometryFilterMethod
  ewkb : Option String
  ewkt : Option String
  geojson : Option String
deriving DecidableEq

/-- filters.BaseFilter._apply_geometry_filter: each of the three encodings is
processed in order when truthy; a raised InvalidFilterGeometry aborts the
generator. -/
def apply_geometry_filter (db : ValidityOracle) (gf : GeometryFilter)
    (geom_field : GeomField) : Except InvalidFilterGeometry (List GeomPred) :=
  let filter_func_type := get_filter_func gf.method
  match (if truthy_str gf.ewkb then
      filter_by_geometry db (gf.ewkb.getD "") "ewkb" geom_field filter_func_type
        GeomFromFunc.geom_from_ewkb
    else Except.ok []) with
  | Except.error e => Except.error e
  | Except.ok p1 =>
    match (if truthy_str gf.ewkt then
        filter_by_geometry db (gf.ewkt.getD "") "ewkt" geom_field filter_func_type
          GeomFromFunc.st_geom_from_ewkt
      else Except.ok []) with
    | Except.error e => Except.error e
    | Except.ok p2 =>
      match (if truthy_str gf.geojson then
          filter_by_geometry db (gf.geojson.getD "") "geojson" geom_field filter_func_type
            GeomFromFunc.geom_from_geojson
        else Except.ok []) with
      | Except.error e => Except.error e
      | Except.ok p3 => Except.ok (p1 ++ p2 ++ p3)

/-!
Projection builders, services.py `_get_select_query` of each service.
Building a select query either produces a column list or raises:
`_get_geometry_output_type` raises ValueError for an unmapped (absent)
format, and the municipalities/elderships/residential-areas/streets services
call `_get_geometry_field(field, srid)` with the required third positional
argument missing, which raises TypeError before the helper body runs.
-/

/-- schemas.GeometryOutputFormat. -/
inductive GeometryOutputFormat where
  | ewkt
  | ewkb
deriving DecidableEq

/-- The SQLAlchemy column type chosen by `_get_geometry_output_type`:
database.EWKTGeometry or geoalchemy2 Geometry(). -/
inductive GeomOutputType where
  | ewkt_geometry
  | geometry_type
deriving DecidableEq

/-- Python-level exceptions raised while building a select query. -/
inductive BuildError where
  | value_error
  | type_error_missing_argument
deriving DecidableEq

/-- services.BaseBoundariesService._get_geometry_output_type: the match
statement's catch-all raises ValueError, which is what an absent format
hits. -/
def get_geometry_output_type :
    Option GeometryOutputFormat → Except BuildError GeomOutputType
  | some GeometryOutputFormat.ewkt => Except.ok GeomOutputType.ewkt_geometry
  | some GeometryOutputFormat.ewkb => Except.ok GeomOutputType.geometry_type
  | none => Except.error BuildError.value_error

/-- Columns of the entity projections (the nested JSON objects are opaque
labels here; geometry records the source column, requested SRID, and output
type of `ST_Transform(field, srid, type_=...)`). -/
inductive SelectColumn where
  | code
  | feature_id
  | name
  | area_ha
  | created_at
  | updated_at
  | length_m
  | full_name
  | plot_or_building_number
  | building_block_number
  | postal_code
  | room_number
  | unique_number
  | cadastral_number
  | county_object
  | municipality_object
  | residential_area_object
  | flat_residential_area_object
  | flat_street_object
  | address_short_object
  | purpose_type_object
  | status_type_object
  | geometry (field : GeomField) (srid : Option Int) (t : GeomOutputType)
deriving DecidableEq

/-- Whether a projection column is the serialized geometry column. -/
def is_geometry_column : SelectColumn → Bool
  | SelectColumn.geometry _ _ _ => true
  | _ => false

/-- services.BaseBoundariesService._get_geometry_field. -/
def get_geometry_field (field : GeomField) (srid : Option Int)
    (geometry_output_format : Option GeometryOutputFormat) :
    Except BuildError SelectColumn := do
  let t ← get_geometry_output_type geometry_output_format
  Except.ok (SelectColumn.geometry field srid t)

/-- Python truthiness of an `Optional[int]` SRID. -/
def truthy_int : Option Int → Bool
  | none => false
  | some n => n != 0

/-- Python truthiness of an `Optional[GeometryOutputFormat]` (the enum values
are non-empty strings, hence truthy whenever present). -/
def truthy_fmt (o : Option GeometryOutputFormat) : Bool := o.isSome

/-- CountiesService base columns (the source lists `area_ha` twice). -/
def counties_base_columns : List SelectColumn :=
  [SelectColumn.code, SelectColumn.feature_id, SelectColumn.name,
   SelectColumn.area_ha, SelectColumn.area_ha, SelectColumn.created_at]

/-- CountiesService._get_select_query: geometry appended only when both the
SRID and the output format are truthy. -/
def counties_select_columns (srid : Option Int)
    (geometry_output_format : Option GeometryOutputFormat) :
    Except BuildError (List SelectColumn) :=
  if truthy_int srid && truthy_fmt geometry_output_format then do
    let g ← get_geometry_field GeomField.counties_geom srid geometry_output_format
    Except.ok (counties_base_columns ++ [g])
  else Except.ok counties_base_columns

/-- MunicipalitiesService base columns. -/
def municipalities_base_columns : List SelectColumn :=
  [SelectColumn.code, SelectColumn.feature_id, SelectColumn.name,
   SelectColumn.area_ha, SelectColumn.created_at, SelectColumn.county_object]

/-- MunicipalitiesService._get_select_query: the geometry column is guarded
by `if srid` alone, and the guarded call `_get_geometry_field(geom, srid)`
omits the required `geometry_output_format` argument, so Python raises
TypeError whenever the SRID is truthy. -/
def municipalities_select_columns (srid : Option Int)
    (_geometry_output_format : Option GeometryOutputFormat) :
    Except BuildError (List SelectColumn) :=
  if truthy_int srid then Except.error BuildError.type_error_missing_argument
  else Except.ok municipalities_base_columns

/-- EldershipsService base columns. -/
def elderships_base_columns : List SelectColumn :=
  [SelectColumn.code, SelectColumn.feature_id, SelectColumn.name,
   SelectColumn.area_ha, SelectColumn.created_at, SelectColumn.municipality_object]

/-- EldershipsService._get_select_query: same missing-argument call shape as
the municipalities service. -/
def elderships_select_columns (srid : Option Int)
    (_geometry_output_format : Option GeometryOutputFormat) :
    Except BuildError (List SelectColumn) :=
  if truthy_int srid then Except.error BuildError.type_error_missing_argument
  else Except.ok elderships_base_columns

/-- ResidentialAreasService base columns. -/
def residential_areas_base_columns : List SelectColumn :=
  [SelectColumn.code, SelectColumn.feature_id, SelectColumn.name,
   SelectColumn.area_ha, SelectColumn.created_at, SelectColumn.municipality_object]

/-- ResidentialAreasService._get_select_query: same missing-argument call
shape as the municipalities service. -/
def residential_areas_select_columns (srid : Option Int)
    (_geometry_output_format : Option GeometryOutputFormat) :
    Except BuildError (List SelectColumn) :=
  if truthy_int srid then Except.error BuildError.type_error_missing_argument
  else Except.ok residential_areas_base_columns

/-- StreetsService base columns. -/
def streets_base_columns : List SelectColumn :=
  [SelectColumn.code, SelectColumn.feature_id, SelectColumn.name,
   SelectColumn.length_m, SelectColumn.full_name, SelectColumn.created_at,
   SelectColumn.residential_area_object]

/-- StreetsService._get_select_query: same missing-argument call shape as the
municipalities service. -/
def streets_select_columns (srid : Option Int)
    (_geometry_output_format : Option GeometryOutputFormat) :
    Except BuildError (List SelectColumn) :=
  if truthy_int srid then Except.error BuildError.type_error_missing_argument
  else Except.ok streets_base_columns

/-- AddressesService base columns (geometry is appended unconditionally by
the select builder). -/
def addresses_base_columns : List SelectColumn :=
  [SelectColumn.feature_id, SelectColumn.code,
   SelectColumn.plot_or_building_number, SelectColumn.building_block_number,
   SelectColumn.postal_code, SelectColumn.created_at,
   SelectColumn.flat_residential_area_object, SelectColumn.municipality_object,
   SelectColumn.flat_street_object]

/-- AddressesService._get_select_query: geometry built unconditionally, so an
absent output format raises ValueError inside the helper. -/
def addresses_select_columns (srid : Option Int)
    (geometry_output_format : Option GeometryOutputFormat) :
    Except BuildError (List SelectColumn) := do
  let g ← get_geometry_field GeomField.addresses_geom srid geometry_output_format
  Except.ok (addresses_base_columns ++ [g])

/-- RoomsService base columns. -/
def rooms_base_columns : List SelectColumn :=
  [SelectColumn.code, SelectColumn.room_number, SelectColumn.created_at,
   SelectColumn.address_short_object]

/-- RoomsService._get_select_query: geometry (taken from the addresses
geometry column) appended only when both the SRID and the output format are
truthy. -/
def rooms_select_columns (srid : Option Int)
    (geometry_output_format : Option GeometryOutputFormat) :
    Except BuildError (List SelectColumn) :=
  if truthy_int srid && truthy_fmt geometry_output_format then do
    let g ← get_geometry_field GeomField.addresses_geom srid geometry_output_format
    Except.ok (rooms_base_columns ++ [g])
  else Except.ok rooms_base_columns

/-- ParcelsService base columns. -/
def parcels_base_columns : List SelectColumn :=
  [SelectColumn.unique_number, SelectColumn.cadastral_number,
   SelectColumn.area_ha, SelectColumn.updated_at,
   SelectColumn.municipality_object, SelectColumn.purpose_type_object,
   SelectColumn.status_type_object]

/-- ParcelsService._get_select_query: geometry built unconditionally, like
the addresses service. -/
def parcels_select_columns (srid : Option Int)
    (geometry_output_format : Option GeometryOutputFormat) :
    Except BuildError (List SelectColumn) := do
  let g ← get_geometry_field GeomField.parcels_geom srid geometry_output_format
  Except.ok (parcels_base_columns ++ [g])

/-!
Sort ordering, services.BaseBoundariesService.search lines 154-174.
A row is abstracted to the value of the requested sort column (a string for
the two natural-sort fields) plus its `code`.  The SQL ORDER BY key list is
modelled as a three-way comparison: the optional natural numeric key
`(sort_attr * 1)` in the requested direction, then the NOCASE-collated
column in the requested direction, then `code` ascending for entity types
exposing a `code` column.
-/

/-- schemas.SearchSortOrder. -/
inductive SearchSortOrder where
  | asc
  | desc
deriving DecidableEq

/-- Value of the leading decimal-digit run of a character list, given an
accumulator. -/
def digits_value : List Char → Int → Int
  | [], acc => acc
  | c :: cs, acc =>
      if c.isDigit then digits_value cs (acc * 10 + (c.toNat - 48)) else acc

/-- Drop leading spaces. -/
def skip_spaces : List Char → List Char
  | ' ' :: cs => skip_spaces cs
  | cs => cs

/-- Models SQLite's string-to-number coercion performed by the expression
`sort_attr * 1` for integer-prefixed strings: leading spaces and an optional
sign are consumed, then the longest digit run gives the value, and a string
with no leading digits coerces to 0. -/
def numeric_cast (s : String) : Int :=
  match skip_spaces s.toList with
  | '-' :: cs => -(digits_value cs 0)
  | '+' :: cs => digits_value cs 0
  | cs => digits_value cs 0

/-- Three-way comparison of integers. -/
def int_cmp (a b : Int) : Ordering :=
  if a < b then Ordering.lt else if b < a then Ordering.gt else Ordering.eq

/-- Lexicographic three-way comparison of character lists. -/
def cmp_chars : List Char → List Char → Ordering
  | [], [] => Ordering.eq
  | [], _ :: _ => Ordering.lt
  | _ :: _, [] => Ordering.gt
  | a :: as, b :: bs =>
      match int_cmp a.toNat b.toNat with
      | Ordering.eq => cmp_chars as bs
      | o => o

/-- SQLite NOCASE collation: case-insensitive string comparison. -/
def nocase_cmp (a b : String) : Ordering :=
  cmp_chars (lower_chars a) (lower_chars b)

/-- Apply the requested sort direction to a comparison outcome. -/
def apply_dir : SearchSortOrder → Ordering → Ordering
  | SearchSortOrder.asc, o => o
  | SearchSortOrder.desc, o => o.swap

/-- A row as seen by the ORDER BY clause: the sort column's string value and
the row's `code`. -/
structure SortRow where
  field_value : String
  code : Int
deriving DecidableEq

/-- The composed ORDER BY comparison of `search`: for `room_number` and
`plot_or_building_number` the natural numeric key `(sort_attr * 1)` comes
first in the requested direction, then the NOCASE-collated sort column in
the requested direction, then `code` ascending when the model class has a
`code` attribute. -/
def search_compare (natural_field : Bool) (order : SearchSortOrder)
    (has_code : Bool) (a b : SortRow) : Ordering :=
  let natural_key :=
    if natural_field then
      apply_dir order (int_cmp (numeric_cast a.field_value) (numeric_cast b.field_value))
    else Ordering.eq
  let field_key := apply_dir order (nocase_cmp a.field_value b.field_value)
  let code_key := if has_code then int_cmp a.code b.code else Ordering.eq
  (natural_key.then field_key).then code_key

/-- Not-greater test derived from the composed comparison. -/
def order_le (natural_field : Bool) (order : SearchSortOrder) (has_code : Bool)
    (a b : SortRow) : Bool :=
  search_compare natural_field order has_code a b != Ordering.gt

/-- Insert a row into a sorted list (stable to the left). -/
def insert_sorted (le : SortRow → SortRow → Bool) (x : SortRow) :
    List SortRow → List SortRow
  | [] => [x]
  | y :: ys => if le x y then x :: y :: ys else y :: insert_sorted le x ys

/-- Stable insertion sort by the given not-greater test, modelling the rows
the data store returns under the composed ORDER BY. -/
def order_rows (le : SortRow → SortRow → Bool) : List SortRow → List SortRow
  | [] => []
  | x :: xs => insert_sorted le x (order_rows le xs)

/-!
Lookup by natural key, services.BaseBoundariesService.get_by_code: apply the
same projection, let the service's `_filter_by_code` restrict the rows, and
return the first remaining row.  ParcelsService._filter_by_code returns the
query unchanged.
-/

/-- services.BaseBoundariesService.get_by_code at the row level: filter the
projected rows with the service's `_filter_by_code`, then take `.first()`. -/
def get_by_code {α : Type} (rows : List α)
    (filter_by_code : List α → Int → List α) (code : Int) : Option α :=
  (filter_by_code rows code).head?

/-- services.ParcelsService._filter_by_code: returns the query unchanged
(the source comments that the lookup is not implemented because unique
numbers are duplicated). -/
def parcels_filter_by_code {α : Type} (query : List α) (_code : Int) : List α :=
  query

/-!
Helper lemmas shared by the claim theorems.
-/

/-- The composed `where` condition agrees with the OR of per-group AND
clauses in which an empty group contributes nothing. -/
theorem compose_search_filter_eq_any {α : Type} (r : α) :
    ∀ gs : List (List (α → Bool)),
      compose_search_filter gs r
        = gs.any (fun g => !g.isEmpty && g.all (fun p => p r))
  | [] => rfl
  | g :: tl => by
      cases g with
      | nil =>
        have h1 : compose_search_filter (([] : List (α → Bool)) :: tl) r
            = compose_search_filter tl r := rfl
        rw [h1, compose_search_filter_eq_any r tl]
        simp
      | cons p ps =>
        have h1 : compose_search_filter ((p :: ps) :: tl) r
            = (and_all (p :: ps) r || compose_search_filter tl r) := by
          simp [compose_search_filter, query_search_filters, List.filter_cons, or_any]
        rw [h1, compose_search_filter_eq_any r tl]
        simp [and_all]

/-- When every filter group materializes no predicate, no `and_` clause is
kept. -/
theorem query_search_filters_of_all_nil {α : Type} :
    ∀ gs : List (List (α → Bool)), (∀ g ∈ gs, g = []) →
      query_search_filters gs = []
  | [], _ => rfl
  | g :: tl, h => by
      have hg : g = [] := h g (List.mem_cons_self g tl)
      subst hg
      have h1 : query_search_filters (([] : List (α → Bool)) :: tl)
          = query_search_filters tl := rfl
      rw [h1]
      exact query_search_filters_of_all_nil tl
        (fun g hmem => h g (List.mem_cons_of_mem _ hmem))

/-- C1: the composed search predicate is the OR of the per-group AND
clauses with empty groups skipped, and a row present once in the table that
satisfies at least one group is returned exactly once. -/
theorem search_or_of_and_groups {α : Type} [DecidableEq α]
    (groups : List (List (α → Bool))) (rows : List α) (r : α)
    (hone : rows.count r = 1)
    (hmatch : ∃ g, g ∈ groups ∧ g ≠ [] ∧ g.all (fun p => p r) = true) :
    compose_search_filter groups r
      = groups.any (fun g => !g.isEmpty && g.all (fun p => p r))
    ∧ (search_where rows groups).count r = 1 := by
  refine ⟨compose_search_filter_eq_any r groups, ?_⟩
  have hpred : compose_search_filter groups r = true := by
    rw [compose_search_filter_eq_any r groups]
    rcases hmatch with ⟨g, hmem, hne, hall⟩
    refine List.any_eq_true.mpr ⟨g, hmem, ?_⟩
    cases g with
    | nil => exact absurd rfl hne
    | cons p ps => simpa using hall
  have h1 : search_where rows groups = rows.filter (compose_search_filter groups) := rfl
  rw [h1, List.count_filter hpred, hone]

/-- Witness for C1: two mutually exclusive one-predicate groups over integer
rows; the row 1 satisfies only the second group and is returned exactly
once. -/
def wit_neg_pred : Int → Bool := fun x => decide (x < 0)

/-- Second witness predicate for C1. -/
def wit_pos_pred : Int → Bool := fun x => decide (0 < x)

/-- The two-group witness request for C1. -/
def wit_groups : List (List (Int → Bool)) := [[wit_neg_pred], [wit_pos_pred]]

/-- Closed instance of `search_or_of_and_groups`. -/
theorem search_or_of_and_groups_instance :
    compose_search_filter wit_groups 1
      = wit_groups.any (fun g => !g.isEmpty && g.all (fun p => p 1))
    ∧ (search_where [1] wit_groups).count 1 = 1 :=
  search_or_of_and_groups wit_groups [1] 1 (by decide)
    ⟨[wit_pos_pred], List.mem_cons_of_mem _ (List.mem_cons_self _ _),
      List.cons_ne_nil _ _, by decide⟩

/-- C2: when the request has zero filter groups, or every group materializes
an empty predicate list, the composed clause list is empty, `or_` of nothing
is false, and `search` returns zero rows. -/
theorem search_zero_filter_groups_returns_nothing {α : Type}
    (rows : List α) (groups : List (List (α → Bool)))
    (h : ∀ g ∈ groups, g = []) :
    search_where rows groups = [] := by
  have hq : query_search_filters groups = [] :=
    query_search_filters_of_all_nil groups h
  have h1 : search_where rows groups
      = rows.filter (or_any (query_search_filters groups)) := rfl
  rw [h1, hq]
  simp [or_any]

/-- Closed instance of `search_zero_filter_groups_returns_nothing` for both
an empty group list and a list of empty groups. -/
theorem search_zero_filter_groups_instance :
    search_where [(1 : Int), 2, 3] ([] : List (List (Int → Bool))) = []
    ∧ search_where [(1 : Int), 2, 3] ([[], []] : List (List (Int → Bool))) = [] :=
  ⟨search_zero_filter_groups_returns_nothing [(1 : Int), 2, 3] []
      (fun _ hg => nomatch hg),
    search_zero_filter_groups_returns_nothing [(1 : Int), 2, 3] [[], []]
      (by intro g hg; simp at hg; exact hg)⟩

/-- C3 counterexample: a number filter with `eq` present but equal to 0 and
`lt` set to 5 yields the `lt` predicate, not the equality predicate the
claim prescribes; the value 3 satisfies the yielded filter although it is
not equal to the supplied `eq`. -/
theorem number_filter_eq_zero_counterexample :
    filter_by_number_field ⟨some 0, none, none, some 5, none⟩ = [NumPred.numLt 5]
    ∧ filter_by_number_field ⟨some 0, none, none, some 5, none⟩ ≠ [NumPred.numEq 0]
    ∧ eval_number_filter ⟨some 0, none, none, some 5, none⟩ 3 = true
    ∧ eval_num_pred (NumPred.numEq 0) 3 = false :=
  ⟨by decide, by decide, by decide, by decide⟩

/-- C3 amended: with presence read as Python truthiness (present and
non-zero), a truthy `eq` is applied alone and matches exactly the equal
values; otherwise truthy `lt` is applied else truthy `lte`, and
independently truthy `gt` else truthy `gte`. -/
theorem number_filter_truthy_semantics (f : NumberFilter) (v : Rat) :
    (truthy_num f.eq = true →
        filter_by_number_field f = [NumPred.numEq (f.eq.getD 0)]
      ∧ (eval_number_filter f v = true ↔ v = f.eq.getD 0))
  ∧ (truthy_num f.eq = false →
      (eval_number_filter f v = true ↔
        ((truthy_num f.lt = true → v < f.lt.getD 0)
        ∧ (truthy_num f.lt = false → truthy_num f.lte = true → v ≤ f.lte.getD 0)
        ∧ (truthy_num f.gt = true → f.gt.getD 0 < v)
        ∧ (truthy_num f.gt = false → truthy_num f.gte = true → f.gte.getD 0 ≤ v)))) := by
  constructor
  · intro h
    refine ⟨by simp [filter_by_number_field, h], ?_⟩
    simp [eval_number_filter, filter_by_number_field, h, eval_num_pred]
  · intro h
    cases hlt : truthy_num f.lt <;> cases hlte : truthy_num f.lte <;>
      cases hgt : truthy_num f.gt <;> cases hgte : truthy_num f.gte <;>
        simp [eval_number_filter, filter_by_number_field, h, hlt, hlte, hgt, hgte,
          eval_num_pred]

/-- Closed instance of `number_filter_truthy_semantics`: a filter with eq 5
and lt 1 matches exactly the value 5, and a filter with lt 10 and lte 5
behaves as less-than-10 at the sample value 7. -/
theorem number_filter_truthy_semantics_instance :
    (filter_by_number_field ⟨some 5, none, none, some 1, none⟩ = [NumPred.numEq 5]
      ∧ eval_number_filter ⟨some 5, none, none, some 1, none⟩ 5 = true)
    ∧ (7 : Rat) < 10 := by
  refine ⟨⟨?_, ?_⟩, ?_⟩
  · exact ((number_filter_truthy_semantics ⟨some 5, none, none, some 1, none⟩ 5).1 (by decide)).1
  · exact (((number_filter_truthy_semantics ⟨some 5, none, none, some 1, none⟩ 5).1
      (by decide)).2).mpr rfl
  · exact (((number_filter_truthy_semantics ⟨none, none, none, some 10, some 5⟩ 7).2
      (by decide)).mp (by decide)).1 (by decide)

/-- Map `some 0` to `none` (Python truthiness identifies the two). -/
def zero_to_none (o : Option Rat) : Option Rat :=
  if o = some 0 then none else o

/-- Truthiness is invariant under `zero_to_none`. -/
theorem truthy_num_zero_to_none (o : Option Rat) :
    truthy_num (zero_to_none o) = truthy_num o := by
  rcases o with _ | x
  · rfl
  · by_cases hx : x = 0 <;> simp [zero_to_none, truthy_num, hx]

/-- The defaulted value is invariant under `zero_to_none`. -/
theorem getD_zero_to_none (o : Option Rat) :
    (zero_to_none o).getD 0 = o.getD 0 := by
  rcases o with _ | x
  · rfl
  · by_cases hx : x = 0 <;> simp [zero_to_none, hx]

/-- C10: a number-filter component set to 0 behaves exactly as if it were
absent; in particular `eq = 0` yields no equality predicate and the range
bounds are applied instead. -/
theorem number_filter_zero_treated_as_absent (f : NumberFilter) :
    filter_by_number_field f
      = filter_by_number_field ⟨zero_to_none f.eq, zero_to_none f.gt,
          zero_to_none f.gte, zero_to_none f.lt, zero_to_none f.lte⟩
  ∧ (f.eq = some 0 →
      (∀ c, NumPred.numEq c ∉ filter_by_number_field f)
      ∧ filter_by_number_field f
          = filter_by_number_field ⟨none, f.gt, f.gte, f.lt, f.lte⟩) := by
  constructor
  · simp [filter_by_number_field, truthy_num_zero_to_none, getD_zero_to_none]
  · intro h
    have heq : truthy_num f.eq = false := by simp [h, truthy_num]
    constructor
    · intro c
      simp only [filter_by_number_field, heq, Bool.false_eq_true, if_false,
        List.mem_append]
      rintro (hmem | hmem) <;>
        · split at hmem <;> simp_all
    · simp [filter_by_number_field, h, truthy_num]

/-- Closed instance of `number_filter_zero_treated_as_absent`. -/
theorem number_filter_zero_treated_as_absent_instance :
    filter_by_number_field ⟨some 0, none, none, some 5, none⟩
      = filter_by_number_field ⟨none, none, none, some 5, none⟩
    ∧ NumPred.numEq 0 ∉ filter_by_number_field ⟨some 0, none, none, some 5, none⟩ := by
  have h := number_filter_zero_treated_as_absent ⟨some 0, none, none, some 5, none⟩
  exact ⟨(h.2 rfl).2, (h.2 rfl).1 0⟩

/-- C4 counterexample: a string filter with `exact` present but equal to ""
and `starts` set to "a" yields the starts-with predicate, not the exact
predicate the claimed first-present precedence prescribes, and the two
predicates disagree at the value "a". -/
theorem string_filter_precedence_counterexample :
    filter_by_string_field ⟨none, some "", some "a"⟩ = [StrPred.istartswith "a"]
    ∧ filter_by_string_field ⟨none, some "", some "a"⟩ ≠ [StrPred.lowerEq ""]
    ∧ eval_str_pred (StrPred.istartswith "a") "a" = true
    ∧ eval_str_pred (StrPred.lowerEq "") "a" = false :=
  ⟨by decide, by decide, by decide, by decide⟩

/-- C4 amended: at most one predicate is yielded, precedence
exact > starts > contains holds among the components that are present and
non-empty (a truthy `exact` makes the other components irrelevant), a filter
with no truthy component contributes no predicate, and the predicates
compare case-insensitively via the lower-cased comparison, prefix and
substring tests. -/
theorem string_filter_truthy_precedence (f : StringFilter) (s v : String) :
    (filter_by_string_field f).length ≤ 1
  ∧ (truthy_str f.exact = true →
      filter_by_string_field f = [StrPred.lowerEq (f.exact.getD "")]
      ∧ filter_by_string_field f = filter_by_string_field ⟨none, f.exact, none⟩)
  ∧ (truthy_str f.exact = false → truthy_str f.starts = true →
      filter_by_string_field f = [StrPred.istartswith (f.starts.getD "")])
  ∧ (truthy_str f.exact = false → truthy_str f.starts = false →
      truthy_str f.contains = true →
      filter_by_string_field f = [StrPred.icontains (f.contains.getD "")])
  ∧ (truthy_str f.exact = false → truthy_str f.starts = false →
      truthy_str f.contains = false → filter_by_string_field f = [])
  ∧ eval_str_pred (StrPred.lowerEq s) v = chars_eq_ci v s
  ∧ eval_str_pred (StrPred.istartswith s) v = starts_ci s v
  ∧ eval_str_pred (StrPred.icontains s) v = contains_ci s v := by
  refine ⟨?_, ?_, ?_, ?_, ?_, rfl, rfl, rfl⟩
  · cases he : truthy_str f.exact <;> cases hs : truthy_str f.starts <;>
      cases hc : truthy_str f.contains <;> simp [filter_by_string_field, he, hs, hc]
  · intro he
    exact ⟨by simp [filter_by_string_field, he],
      by simp [filter_by_string_field, he]⟩
  · intro he hs
    simp [filter_by_string_field, he, hs]
  · intro he hs hc
    simp [filter_by_string_field, he, hs, hc]
  · intro he hs hc
    simp [filter_by_string_field, he, hs, hc]

/-- Closed instance of `string_filter_truthy_precedence`. -/
theorem string_filter_truthy_precedence_instance :
    (filter_by_string_field ⟨some "x", some "AbC", some "y"⟩).length ≤ 1
    ∧ filter_by_string_field ⟨some "x", some "AbC", some "y"⟩ = [StrPred.lowerEq "AbC"]
    ∧ filter_by_string_field ⟨some "z", none, some "a"⟩ = [StrPred.istartswith "a"]
    ∧ filter_by_string_field ⟨some "", none, none⟩ = [] := by
  refine ⟨(string_filter_truthy_precedence ⟨some "x", some "AbC", some "y"⟩ "q" "Q").1,
    ((string_filter_truthy_precedence ⟨some "x", some "AbC", some "y"⟩ "q" "Q").2.1
      (by decide)).1, ?_, ?_⟩
  · exact (string_filter_truthy_precedence ⟨some "z", none, some "a"⟩ "q" "Q").2.2.1
      (by decide) (by decide)
  · exact (string_filter_truthy_precedence ⟨some "", none, none⟩ "q" "Q").2.2.2.2.1
      (by decide) (by decide) (by decide)

/-- C5 counterexample: a string filter with only `contains` set to "" yields
no predicate at all (the empty string is falsy), so no always-true predicate
results. -/
theorem contains_empty_counterexample :
    filter_by_string_field ⟨some "", none, none⟩ = []
    ∧ ¬ (∃ p : StrPred, filter_by_string_field ⟨some "", none, none⟩ = [p]
          ∧ ∀ w : String, eval_str_pred p w = true) := by
  refine ⟨by decide, ?_⟩
  rintro ⟨p, hp, _⟩
  rw [show filter_by_string_field ⟨some "", none, none⟩ = [] from by decide] at hp
  exact List.noConfusion hp

/-- C5 amended: a string filter whose only set component is `contains` equal
to "" contributes no predicate (the empty string reads as unset), rather
than a predicate matching every non-null value. -/
theorem contains_empty_yields_no_predicate (f : StringFilter)
    (hc : f.contains = some "") (he : f.exact = none) (hs : f.starts = none) :
    filter_by_string_field f = [] := by
  cases f with
  | mk c e s =>
    simp only at hc he hs
    subst hc
    subst he
    subst hs
    decide

/-- Closed instance of `contains_empty_yields_no_predicate`. -/
theorem contains_empty_yields_no_predicate_instance :
    filter_by_string_field ⟨some "", none, none⟩ = [] :=
  contains_empty_yields_no_predicate ⟨some "", none, none⟩ rfl rfl rfl

/-- C6: a geometry whose validity check fails, including when the spatial
engine raises a low-level execution error, makes the filter fail with
InvalidFilterGeometry carrying the supplying field name and the raw input;
a valid geometry yields exactly one predicate applying the chosen method to
the SRID-3346-transformed geometry.  The last conjunct instantiates the
EWKT encoding at the full geometry-filter level. -/
theorem geometry_filter_validity (db : ValidityOracle) (value : String)
    (field : String) (gfld : GeomField) (ff : FilterFunc) (pf : GeomFromFunc)
    (gf : GeometryFilter) (w : String) :
    (is_valid_geometry db (GeomExpr.transform (GeomExpr.fromValue pf value) 3346) = false →
      filter_by_geometry db value field gfld ff pf
        = Except.error ⟨"Invalid geometry", field, value⟩)
  ∧ (db (GeomExpr.transform (GeomExpr.fromValue pf value) 3346) = Except.error () →
      is_valid_geometry db (GeomExpr.transform (GeomExpr.fromValue pf value) 3346) = false)
  ∧ (is_valid_geometry db (GeomExpr.transform (GeomExpr.fromValue pf value) 3346) = true →
      filter_by_geometry db value field gfld ff pf
        = Except.ok [⟨ff, GeomExpr.transform (GeomExpr.fromValue pf value) 3346, gfld⟩])
  ∧ (gf.ewkb = none → gf.ewkt = some w → w ≠ "" →
      is_valid_geometry db
          (GeomExpr.transform (GeomExpr.fromValue GeomFromFunc.st_geom_from_ewkt w) 3346)
        = false →
      apply_geometry_filter db gf gfld = Except.error ⟨"Invalid geometry", "ewkt", w⟩) := by
  refine ⟨?_, ?_, ?_, ?_⟩
  · intro h
    simp [filter_by_geometry, h]
  · intro h
    simp [is_valid_geometry, h]
  · intro h
    simp [filter_by_geometry, h]
  · intro hb ht hw hv
    have hwe : w.isEmpty = false := by
      cases hempty : w.isEmpty
      · rfl
      · exact absurd ((String.isEmpty_iff w).mp hempty) hw
    have hfail : filter_by_geometry db w "ewkt" gfld (get_filter_func gf.method)
        GeomFromFunc.st_geom_from_ewkt = Except.error ⟨"Invalid geometry", "ewkt", w⟩ := by
      simp [filter_by_geometry, hv]
    simp [apply_geometry_filter, hb, ht, truthy_str, hwe, hfail]

/-- Oracle for the C6 instance whose validity round trip always raises. -/
def wit_db_err : ValidityOracle := fun _ => Except.error ()

/-- Oracle for the C6 instance whose validity round trip returns 1. -/
def wit_db_ok : ValidityOracle := fun _ => Except.ok 1

/-- Closed instance of `geometry_filter_validity`: an erroring engine makes
the EWKT filter fail with field "ewkt" and the raw input echoed, both for the
single-encoding helper and the full geometry filter, while a valid geometry
yields the single intersects predicate. -/
theorem geometry_filter_validity_instance :
    filter_by_geometry wit_db_err "POLYGON" "ewkt" GeomField.counties_geom
        FilterFunc.st_intersects GeomFromFunc.st_geom_from_ewkt
      = Except.error ⟨"Invalid geometry", "ewkt", "POLYGON"⟩
    ∧ filter_by_geometry wit_db_ok "POLYGON" "ewkt" GeomField.counties_geom
        FilterFunc.st_intersects GeomFromFunc.st_geom_from_ewkt
      = Except.ok [⟨FilterFunc.st_intersects,
          GeomExpr.transform (GeomExpr.fromValue GeomFromFunc.st_geom_from_ewkt "POLYGON") 3346,
          GeomField.counties_geom⟩]
    ∧ apply_geometry_filter wit_db_err
        ⟨GeometryFilterMethod.intersects, none, some "BAD", none⟩ GeomField.counties_geom
      = Except.error ⟨"Invalid geometry", "ewkt", "BAD"⟩ := by
  refine ⟨?_, ?_, ?_⟩
  · exact (geometry_filter_validity wit_db_err "POLYGON" "ewkt" GeomField.counties_geom
      FilterFunc.st_intersects GeomFromFunc.st_geom_from_ewkt
      ⟨GeometryFilterMethod.intersects, none, none, none⟩ "w").1 rfl
  · exact (geometry_filter_validity wit_db_ok "POLYGON" "ewkt" GeomField.counties_geom
      FilterFunc.st_intersects GeomFromFunc.st_geom_from_ewkt
      ⟨GeometryFilterMethod.intersects, none, none, none⟩ "w").2.2.1 rfl
  · exact (geometry_filter_validity wit_db_err "v" "f" GeomField.counties_geom
      FilterFunc.st_intersects GeomFromFunc.st_geom_from_ewkt
      ⟨GeometryFilterMethod.intersects, none, some "BAD", none⟩ "BAD").2.2.2
      rfl rfl (by decide) rfl

/-- C7: evaluation of the select-query builders at the divergent inputs.
The municipalities (and elderships, residential areas, streets) builder
raises TypeError whenever an SRID is requested — with or without an output
format — because its `_get_geometry_field` call omits the required format
argument, and the rooms builder omits the geometry column when SRID or
format is absent, while the counties builder includes geometry exactly when
both are present. -/
theorem geometry_projection_divergence :
    municipalities_select_columns (some 4326) (some GeometryOutputFormat.ewkb)
      = Except.error BuildError.type_error_missing_argument
    ∧ elderships_select_columns (some 4326) none
      = Except.error BuildError.type_error_missing_argument
    ∧ residential_areas_select_columns (some 3346) (some GeometryOutputFormat.ewkt)
      = Except.error BuildError.type_error_missing_argument
    ∧ streets_select_columns (some 4326) (some GeometryOutputFormat.ewkt)
      = Except.error BuildError.type_error_missing_argument
    ∧ rooms_select_columns none none = Except.ok rooms_base_columns
    ∧ rooms_base_columns.all (fun c => !is_geometry_column c) = true
    ∧ counties_select_columns (some 4326) (some GeometryOutputFormat.ewkb)
      = Except.ok (counties_base_columns
          ++ [SelectColumn.geometry GeomField.counties_geom (some 4326)
                GeomOutputType.geometry_type])
    ∧ counties_select_columns (some 4326) none = Except.ok counties_base_columns
    ∧ counties_base_columns.all (fun c => !is_geometry_column c) = true :=
  ⟨rfl, rfl, rfl, rfl, rfl, by decide, rfl, rfl, by decide⟩

/-- An ordering outcome other than `eq` is kept by `Ordering.then`. -/
theorem ordering_then_of_ne_eq {o : Ordering} (x : Ordering)
    (h : o ≠ Ordering.eq) : o.then x = o := by
  cases o
  · rfl
  · exact absurd rfl h
  · rfl

/-- Applying a sort direction never turns a strict outcome into a tie. -/
theorem apply_dir_ne_eq (d : SearchSortOrder) {o : Ordering}
    (h : o ≠ Ordering.eq) : apply_dir d o ≠ Ordering.eq := by
  cases d <;> cases o <;> simp_all [apply_dir, Ordering.swap]

/-- Character-list comparison is reflexive. -/
theorem cmp_chars_self (l : List Char) : cmp_chars l l = Ordering.eq := by
  induction l with
  | nil => rfl
  | cons c cs ih => simp [cmp_chars, int_cmp, ih]

/-- Integer comparison is reflexive. -/
theorem int_cmp_self (n : Int) : int_cmp n n = Ordering.eq := by
  simp [int_cmp]

/-- NOCASE string comparison is reflexive. -/
theorem nocase_cmp_self (s : String) : nocase_cmp s s = Ordering.eq := by
  simp [nocase_cmp, cmp_chars_self]

/-- Integer comparison yields a tie exactly on equal arguments. -/
theorem int_cmp_eq_iff (a b : Int) : int_cmp a b = Ordering.eq ↔ a = b := by
  unfold int_cmp
  by_cases h1 : a < b
  · simp [h1]
    omega
  · by_cases h2 : b < a
    · simp [h1, h2]
      omega
    · simp [h1, h2]
      omega

/-- C8: for the natural-sort fields the composed ORDER BY is decided by the
numeric coercion of the field in the requested direction whenever the
coerced values differ; when the sort column values tie completely, `code`
ascending decides for entity types exposing a `code`; and the spec's sample
rows sort as prescribed. -/
theorem natural_sort_with_code_tiebreaker (natural_field : Bool)
    (order : SearchSortOrder) (has_code : Bool) (a b : SortRow) :
    (numeric_cast a.field_value ≠ numeric_cast b.field_value →
        search_compare true order has_code a b
          = apply_dir order (int_cmp (numeric_cast a.field_value) (numeric_cast b.field_value)))
  ∧ (a.field_value = b.field_value →
        search_compare natural_field order true a b = int_cmp a.code b.code)
  ∧ order_rows (order_le true SearchSortOrder.asc true)
        [⟨"2", 1⟩, ⟨"10", 2⟩, ⟨"1A", 3⟩, ⟨"101", 4⟩]
      = [⟨"1A", 3⟩, ⟨"2", 1⟩, ⟨"10", 2⟩, ⟨"101", 4⟩] := by
  refine ⟨?_, ?_, by decide⟩
  · intro h
    have hne : int_cmp (numeric_cast a.field_value) (numeric_cast b.field_value)
        ≠ Ordering.eq := fun hc => h ((int_cmp_eq_iff _ _).mp hc)
    have hd := apply_dir_ne_eq order hne
    simp only [search_compare, if_true]
    rw [ordering_then_of_ne_eq _ hd, ordering_then_of_ne_eq _ hd]
  · intro h
    cases natural_field <;> cases order <;>
      simp [search_compare, apply_dir, h, nocase_cmp_self, int_cmp_self,
        Ordering.then, Ordering.swap]

/-- Closed instance of `natural_sort_with_code_tiebreaker`: "2" precedes
"10" by the numeric key although "10" precedes "2" alphabetically, and equal
sort-column values fall back to the ascending code comparison. -/
theorem natural_sort_with_code_tiebreaker_instance :
    search_compare true SearchSortOrder.asc true ⟨"2", 9⟩ ⟨"10", 1⟩
      = apply_dir SearchSortOrder.asc (int_cmp (numeric_cast "2") (numeric_cast "10"))
    ∧ search_compare true SearchSortOrder.desc true ⟨"7B", 9⟩ ⟨"7B", 1⟩ = int_cmp 9 1 := by
  constructor
  · exact (natural_sort_with_code_tiebreaker true SearchSortOrder.asc true
      ⟨"2", 9⟩ ⟨"10", 1⟩).1 (by decide)
  · exact (natural_sort_with_code_tiebreaker true SearchSortOrder.desc true
      ⟨"7B", 9⟩ ⟨"7B", 1⟩).2.1 rfl

/-- C9: the parcels code filter is a pass-through, so parcels lookup by code
returns the first row of the unfiltered projection independent of the
supplied code. -/
theorem parcels_lookup_ignores_code {α : Type} (rows : List α) (c1 c2 : Int) :
    parcels_filter_by_code rows c1 = rows
    ∧ get_by_code rows parcels_filter_by_code c1 = rows.head?
    ∧ get_by_code rows parcels_filter_by_code c1
        = get_by_code rows parcels_filter_by_code c2 :=
  ⟨rfl, rfl, rfl⟩
